import Mathlib

/-
Shallow embedding of src/libs/acl/opentelemetry/provider.go
(package opentelemetry of the eino-ext repository).

The file under verification is configuration glue around the
OpenTelemetry Go SDK.  Pure construction steps of the SDK
(otlptracegrpc.NewClient, sdktrace.NewBatchSpanProcessor,
sdktrace.NewTracerProvider, metric.NewPeriodicReader,
metric.NewMeterProvider) are embedded as constructors that record the
arguments they were built from.  Fallible or effectful SDK entry points
(otlptrace.New, otlpmetricgrpc.New, resource.New, the Shutdown methods
of the two providers, and otel.Handle) are parameterised by an
environment `Env`; each function additionally returns the ordered list
of external calls it performed, as `Effect` values.  A Go nil pointer is
`Option.none`, and the Go `error` interface is `Option GoError` with
`none` standing for the nil error.  The caller-supplied context is
opaque to the embedded code and is folded into `Env`.
-/

set_option autoImplicit false

namespace EinoOtel

/-- Go error values, identified by their message string. -/
abbrev GoError := String

/-- An OpenTelemetry resource descriptor.  `mk id` is an arbitrary
resource value (for instance one supplied through config, or one
returned by detection); `defaultRes` is the distinguished value returned
by the SDK call `resource.Default()`. -/
inductive Resource where
  | mk (id : Nat)
  | defaultRes
deriving DecidableEq, Repr

/-- The gRPC exporter-client options used by provider.go, shared in shape
between `otlptracegrpc.Option` and `otlpmetricgrpc.Option`:
`WithEndpoint`, `WithHeaders`, `WithInsecure`, and
`WithTLSCredentials(credentials.NewClientTLSFromCert(nil, ""))`. -/
inductive ClientOption where
  | withEndpoint (endpoint : String)
  | withHeaders (headers : List (String × String))
  | withInsecure
  | withTLSCredentials
deriving DecidableEq, Repr

/-- The `resource.Option` values passed to `resource.New` by
`newResource`. -/
inductive ResourceOption where
  | withHost
  | withFromEnv
  | withProcessPID
  | withTelemetrySDK
  | withDetectors (detectors : List Nat)
  | withAttributes (attrs : List (Nat × Nat))
deriving DecidableEq, Repr

/-- Sampler policy objects are opaque to provider.go. -/
abbrev Sampler := Nat

/-- Trace client of `otlptracegrpc`: fully determined by the options it was
built from (`otlptracegrpc.NewClient(traceClientOpts...)`). -/
structure TraceClient where
  opts : List ClientOption
deriving DecidableEq, Repr

/-- An OTLP trace exporter value returned by `otlptrace.New`. -/
structure TraceExporter where
  id : Nat
deriving DecidableEq, Repr

/-- Result of `sdktrace.NewBatchSpanProcessor(traceExp)`: wraps the exporter. -/
structure BatchSpanProcessor where
  exporter : TraceExporter
deriving DecidableEq, Repr

/-- An SDK tracer provider (`*sdktrace.TracerProvider`).  `external id`
is a pre-built provider supplied from outside (for instance through the
config override field); `ofPipeline` is the provider built by
`sdktrace.NewTracerProvider` from a sampler, a resource and a batch span
processor. -/
inductive TracerProvider where
  | external (id : Nat)
  | ofPipeline (sampler : Sampler) (res : Resource) (bsp : BatchSpanProcessor)
deriving DecidableEq, Repr

/-- An OTLP metric exporter value returned by `otlpmetricgrpc.New`. -/
structure MetricExporter where
  id : Nat
deriving DecidableEq, Repr

/-- Result of `metric.NewPeriodicReader(metricExp, metric.WithInterval(...))`:
wraps the exporter together with the export interval in seconds. -/
structure PeriodicReader where
  exporter : MetricExporter
  intervalSeconds : Nat
deriving DecidableEq, Repr

/-- An SDK meter provider (`*metric.MeterProvider`).  `external id` is a
pre-built provider supplied from outside; `ofPipeline` is the provider
built by `metric.NewMeterProvider` from a reader and a resource. -/
inductive MeterProvider where
  | external (id : Nat)
  | ofPipeline (reader : PeriodicReader) (res : Resource)
deriving DecidableEq, Repr

/-- Embeds `otlptracegrpc.NewClient(opts...)`. -/
def NewClient (opts : List ClientOption) : TraceClient := ⟨opts⟩

/-- Embeds `sdktrace.NewBatchSpanProcessor(traceExp)`. -/
def NewBatchSpanProcessor (traceExp : TraceExporter) : BatchSpanProcessor := ⟨traceExp⟩

/-- Embeds `sdktrace.NewTracerProvider(WithSampler(s), WithResource(r), WithSpanProcessor(b))`. -/
def NewTracerProvider (s : Sampler) (r : Resource) (b : BatchSpanProcessor) : TracerProvider :=
  TracerProvider.ofPipeline s r b

/-- Embeds `metric.NewPeriodicReader(metricExp, metric.WithInterval(interval))`. -/
def NewPeriodicReader (metricExp : MetricExporter) (interval : Nat) : PeriodicReader :=
  ⟨metricExp, interval⟩

/-- Embeds `metric.NewMeterProvider(reader, metric.WithResource(r))`. -/
def NewMeterProvider (reader : PeriodicReader) (r : Resource) : MeterProvider :=
  MeterProvider.ofPipeline reader r

/-- The configuration struct produced by `newConfig(opts)`.  The
`config` and `Option` definitions themselves are owned by a collaborator
outside this file (simple field setters); the claims quantify over
finished configurations, so the embedding takes the configuration
directly.  Detectors are opaque (identified by `Nat`), attributes are
opaque key-value pairs. -/
structure Config where
  enableTracing : Bool
  enableMetrics : Bool
  exportEndpoint : String
  exportHeaders : List (String × String)
  exportInsecure : Bool
  exportTLSInsecure : Bool
  sampler : Sampler
  resource : Option Resource
  resourceDetectors : List Nat
  resourceAttributes : List (Nat × Nat)
  sdkTracerProvider : Option TracerProvider
  meterProvider : Option MeterProvider

/-- Behaviour of the fallible and effectful external SDK entry points,
at the (opaque) contexts used by provider.go.  `tracerShutdown` and
`meterShutdown` return `none` for a nil error. -/
structure Env where
  resourceNew : List ResourceOption → Except GoError Resource
  otlptraceNew : TraceClient → Except GoError TraceExporter
  otlpmetricNew : List ClientOption → Except GoError MetricExporter
  tracerShutdown : TracerProvider → Option GoError
  meterShutdown : MeterProvider → Option GoError

/-- Ordered log entries for the external calls performed by the embedded
functions: a detector-running `resource.New` invocation, the two
exporter constructions, the underlying provider Shutdown calls, and
`otel.Handle`. -/
inductive Effect where
  | resourceDetect (opts : List ResourceOption)
  | traceExporterNew (opts : List ClientOption)
  | metricExporterNew (opts : List ClientOption)
  | tracerShutdownCall (p : TracerProvider)
  | meterShutdownCall (p : MeterProvider)
  | otelHandle (e : GoError)
deriving DecidableEq, Repr

/-- Whether an effect is one of the two underlying provider Shutdown
invocations. -/
def Effect.isProviderShutdown : Effect → Bool
  | Effect.tracerShutdownCall _ => true
  | Effect.meterShutdownCall _ => true
  | _ => false

/-- The struct returned by `NewOpenTelemetryProvider`, holding the two
(possibly nil) provider pointers. -/
structure OtelProvider where
  TracerProvider : Option TracerProvider
  MeterProvider : Option MeterProvider
deriving DecidableEq, Repr

/-- Embeds `(p *OtelProvider) Shutdown(ctx)`: for each non-nil provider in
order (tracer first, then meter) assign `err` the result of its Shutdown
and pass a non-nil `err` to `otel.Handle`; finally return `err`.  Note
that the assignment to `err` happens in both branches, so a meter
Shutdown result overwrites the tracer result whenever the meter provider
is non-nil.  Returns the final `err` together with the call log. -/
def OtelProvider.Shutdown (env : Env) (p : OtelProvider) : Option GoError × List Effect :=
  let first : Option GoError × List Effect :=
    match p.TracerProvider with
    | none => (none, [])
    | some tp =>
      match env.tracerShutdown tp with
      | some e => (some e, [Effect.tracerShutdownCall tp, Effect.otelHandle e])
      | none => (none, [Effect.tracerShutdownCall tp])
  match p.MeterProvider with
  | none => first
  | some mp =>
    match env.meterShutdown mp with
    | some e => (some e, first.2 ++ [Effect.meterShutdownCall mp, Effect.otelHandle e])
    | none => (none, first.2 ++ [Effect.meterShutdownCall mp])

/-- The `resource.Option` list passed to `resource.New` by
`newResource`: `WithHost(), WithFromEnv(), WithProcessPID(),
WithTelemetrySDK(), WithDetectors(cfg.resourceDetectors...),
WithAttributes(cfg.resourceAttributes...)`. -/
def resourceOptions (cfg : Config) : List ResourceOption :=
  [ResourceOption.withHost, ResourceOption.withFromEnv, ResourceOption.withProcessPID,
   ResourceOption.withTelemetrySDK, ResourceOption.withDetectors cfg.resourceDetectors,
   ResourceOption.withAttributes cfg.resourceAttributes]

/-- Embeds `newResource(cfg)`: return a pre-built resource unchanged, otherwise
run detection through `resource.New` and fall back to
`resource.Default()` on error. -/
def newResource (env : Env) (cfg : Config) : Resource × List Effect :=
  match cfg.resource with
  | some r => (r, [])
  | none =>
    match env.resourceNew (resourceOptions cfg) with
    | Except.ok res => (res, [Effect.resourceDetect (resourceOptions cfg)])
    | Except.error _ => (Resource.defaultRes, [Effect.resourceDetect (resourceOptions cfg)])

/-- The `traceClientOpts` slice built in the tracing branch of
`NewOpenTelemetryProvider` (lines 78 to 89 of provider.go): endpoint,
headers, then exactly one of `WithInsecure` / `WithTLSCredentials` /
nothing. -/
def traceClientOpts (cfg : Config) : List ClientOption :=
  (if cfg.exportEndpoint ≠ "" then [ClientOption.withEndpoint cfg.exportEndpoint] else []) ++
  (if cfg.exportHeaders.length > 0 then [ClientOption.withHeaders cfg.exportHeaders] else []) ++
  (if cfg.exportInsecure then [ClientOption.withInsecure]
   else if cfg.exportTLSInsecure then [ClientOption.withTLSCredentials] else [])

/-- The `metricsClientOpts` slice built in the metrics branch of
`NewOpenTelemetryProvider` (lines 116 to 127 of provider.go), following
the same pattern as the trace options. -/
def metricsClientOpts (cfg : Config) : List ClientOption :=
  (if cfg.exportEndpoint ≠ "" then [ClientOption.withEndpoint cfg.exportEndpoint] else []) ++
  (if cfg.exportHeaders.length > 0 then [ClientOption.withHeaders cfg.exportHeaders] else []) ++
  (if cfg.exportInsecure then [ClientOption.withInsecure]
   else if cfg.exportTLSInsecure then [ClientOption.withTLSCredentials] else [])

/-- The tracing branch (lines 76 to 110): if tracing is enabled, either
take the override provider verbatim, or build the client, the exporter
(fallible, with a wrapping error message on failure causing an early
return of the whole function), the batch span processor and the tracer
provider.  `Except.error` carries the wrapped message and the log of the
branch for the early-return path. -/
def traceStep (env : Env) (cfg : Config) (res : Resource) :
    Except (GoError × List Effect) (Option TracerProvider × List Effect) :=
  if cfg.enableTracing then
    match cfg.sdkTracerProvider with
    | some tp => Except.ok (some tp, [])
    | none =>
      let traceClient := NewClient (traceClientOpts cfg)
      match env.otlptraceNew traceClient with
      | Except.error e =>
        Except.error ("failed to create otlp trace exporter: " ++ e,
          [Effect.traceExporterNew traceClient.opts])
      | Except.ok traceExp =>
        let bsp := NewBatchSpanProcessor traceExp
        Except.ok (some (NewTracerProvider cfg.sampler res bsp),
          [Effect.traceExporterNew traceClient.opts])
  else Except.ok (none, [])

/-- The metrics branch (lines 113 to 141): if metrics is enabled, either
take the override provider verbatim, or build the exporter (fallible,
with a wrapping error message on failure causing an early return), the
periodic reader with a 15 second interval, and the meter provider. -/
def metricsStep (env : Env) (cfg : Config) (res : Resource) :
    Except (GoError × List Effect) (Option MeterProvider × List Effect) :=
  if cfg.enableMetrics then
    match cfg.meterProvider with
    | some mp => Except.ok (some mp, [])
    | none =>
      match env.otlpmetricNew (metricsClientOpts cfg) with
      | Except.error e =>
        Except.error ("failed to create otlp metric exporter: " ++ e,
          [Effect.metricExporterNew (metricsClientOpts cfg)])
      | Except.ok metricExp =>
        let reader := NewPeriodicReader metricExp 15
        Except.ok (some (NewMeterProvider reader res),
          [Effect.metricExporterNew (metricsClientOpts cfg)])
  else Except.ok (none, [])

/-- Embeds `NewOpenTelemetryProvider(opts...)` on the resolved configuration:
if both toggles are off return `(nil, nil)` at once; otherwise build the
resource, run the tracing branch, run the metrics branch (each branch
returning early with a nil pair and a wrapped error on exporter
failure), and return the handle pair.  The result is
`((pair, err), log)` where `pair : Option OtelProvider` is the Go
`*OtelProvider` and `err : Option GoError` the Go `error`. -/
def NewOpenTelemetryProvider (env : Env) (cfg : Config) :
    (Option OtelProvider × Option GoError) × List Effect :=
  if !cfg.enableTracing && !cfg.enableMetrics then
    ((none, none), [])
  else
    let resAndLog := newResource env cfg
    match traceStep env cfg resAndLog.1 with
    | Except.error fail => ((none, some fail.1), resAndLog.2 ++ fail.2)
    | Except.ok tOk =>
      match metricsStep env cfg resAndLog.1 with
      | Except.error fail => ((none, some fail.1), resAndLog.2 ++ tOk.2 ++ fail.2)
      | Except.ok mOk =>
        ((some ⟨tOk.1, mOk.1⟩, none), resAndLog.2 ++ tOk.2 ++ mOk.2)

/-- A sample pre-built tracer provider for concrete instantiations. -/
def tpA : TracerProvider := TracerProvider.external 1

/-- A sample pre-built meter provider for concrete instantiations. -/
def mpA : MeterProvider := MeterProvider.external 2

/-- An environment in which every external SDK call succeeds. -/
def envOk : Env :=
  ⟨fun _ => Except.ok (Resource.mk 7), fun _ => Except.ok ⟨11⟩,
   fun _ => Except.ok ⟨12⟩, fun _ => none, fun _ => none⟩

/-- An environment in which only the tracer provider Shutdown fails. -/
def envTraceShutdownFails : Env :=
  ⟨fun _ => Except.ok (Resource.mk 7), fun _ => Except.ok ⟨11⟩,
   fun _ => Except.ok ⟨12⟩, fun _ => some "trace shutdown failed", fun _ => none⟩

/-- An environment in which both provider Shutdowns fail. -/
def envBothShutdownsFail : Env :=
  ⟨fun _ => Except.ok (Resource.mk 7), fun _ => Except.ok ⟨11⟩,
   fun _ => Except.ok ⟨12⟩, fun _ => some "tfail", fun _ => some "mfail"⟩

/-- An environment in which trace-exporter construction fails. -/
def envTraceExporterFails : Env :=
  ⟨fun _ => Except.ok (Resource.mk 7), fun _ => Except.error "boom",
   fun _ => Except.ok ⟨12⟩, fun _ => none, fun _ => none⟩

/-- An environment in which metric-exporter construction fails. -/
def envMetricExporterFails : Env :=
  ⟨fun _ => Except.ok (Resource.mk 7), fun _ => Except.ok ⟨11⟩,
   fun _ => Except.error "mboom", fun _ => none, fun _ => none⟩

/-- An environment in which resource detection fails. -/
def envResourceFails : Env :=
  ⟨fun _ => Except.error "no host info", fun _ => Except.ok ⟨11⟩,
   fun _ => Except.ok ⟨12⟩, fun _ => none, fun _ => none⟩

/-- Configuration with both telemetry toggles off. -/
def cfgOff : Config := ⟨false, false, "", [], false, false, 0, none, [], [], none, none⟩

/-- Configuration with only tracing enabled, no overrides. -/
def cfgTraceOnly : Config := ⟨true, false, "", [], false, false, 0, none, [], [], none, none⟩

/-- Configuration with tracing enabled and an override tracer provider. -/
def cfgTraceOverride : Config := ⟨true, false, "", [], false, false, 0, none, [], [], some tpA, none⟩

/-- Configuration with tracing and metrics enabled, no overrides. -/
def cfgBoth : Config := ⟨true, true, "", [], false, false, 0, none, [], [], none, none⟩

/-- Configuration with both insecurity flags set, plus endpoint and headers. -/
def cfgBothInsecure : Config :=
  ⟨true, true, "collector:4317", [("k", "v")], true, true, 0, none, [], [], none, none⟩

/-- Configuration carrying a pre-built resource descriptor. -/
def cfgPrebuiltRes : Config :=
  ⟨true, false, "", [], false, false, 0, some (Resource.mk 5), [], [], some tpA, none⟩

/-- Handle pair with only the tracer provider set. -/
def pairTraceOnly : OtelProvider := ⟨some tpA, none⟩

/-- Handle pair with both providers set. -/
def pairBoth : OtelProvider := ⟨some tpA, some mpA⟩

/-- The handle pair built by `NewOpenTelemetryProvider envOk cfgTraceOnly`. -/
def pairBuiltTrace : OtelProvider :=
  ⟨some (NewTracerProvider 0 (Resource.mk 7) (NewBatchSpanProcessor ⟨11⟩)), none⟩

/-! Helper lemmas characterising the embedded functions branch by
branch.  These are shared infrastructure for the claim theorems. -/

@[simp] theorem isProviderShutdown_resourceDetect (opts : List ResourceOption) :
    Effect.isProviderShutdown (Effect.resourceDetect opts) = false := rfl

@[simp] theorem isProviderShutdown_traceExporterNew (opts : List ClientOption) :
    Effect.isProviderShutdown (Effect.traceExporterNew opts) = false := rfl

@[simp] theorem isProviderShutdown_metricExporterNew (opts : List ClientOption) :
    Effect.isProviderShutdown (Effect.metricExporterNew opts) = false := rfl

@[simp] theorem isProviderShutdown_tracerShutdownCall (q : TracerProvider) :
    Effect.isProviderShutdown (Effect.tracerShutdownCall q) = true := rfl

@[simp] theorem isProviderShutdown_meterShutdownCall (q : MeterProvider) :
    Effect.isProviderShutdown (Effect.meterShutdownCall q) = true := rfl

@[simp] theorem isProviderShutdown_otelHandle (e : GoError) :
    Effect.isProviderShutdown (Effect.otelHandle e) = false := rfl

theorem traceStep_disabled (env : Env) (cfg : Config) (r : Resource)
    (h : cfg.enableTracing = false) : traceStep env cfg r = Except.ok (none, []) := by
  simp [traceStep, h]

theorem traceStep_override (env : Env) (cfg : Config) (r : Resource) (tp : TracerProvider)
    (h : cfg.enableTracing = true) (ho : cfg.sdkTracerProvider = some tp) :
    traceStep env cfg r = Except.ok (some tp, []) := by
  simp [traceStep, h, ho]

theorem traceStep_exporter_error (env : Env) (cfg : Config) (r : Resource) (e : GoError)
    (h : cfg.enableTracing = true) (ho : cfg.sdkTracerProvider = none)
    (he : env.otlptraceNew (NewClient (traceClientOpts cfg)) = Except.error e) :
    traceStep env cfg r = Except.error
      ("failed to create otlp trace exporter: " ++ e,
       [Effect.traceExporterNew (traceClientOpts cfg)]) := by
  have he2 : env.otlptraceNew ⟨traceClientOpts cfg⟩ = Except.error e := he
  simp [traceStep, h, ho, he2, NewClient]

theorem traceStep_exporter_ok (env : Env) (cfg : Config) (r : Resource) (texp : TraceExporter)
    (h : cfg.enableTracing = true) (ho : cfg.sdkTracerProvider = none)
    (he : env.otlptraceNew (NewClient (traceClientOpts cfg)) = Except.ok texp) :
    traceStep env cfg r = Except.ok
      (some (NewTracerProvider cfg.sampler r (NewBatchSpanProcessor texp)),
       [Effect.traceExporterNew (traceClientOpts cfg)]) := by
  have he2 : env.otlptraceNew ⟨traceClientOpts cfg⟩ = Except.ok texp := he
  simp [traceStep, h, ho, he2, NewClient]

theorem metricsStep_disabled (env : Env) (cfg : Config) (r : Resource)
    (h : cfg.enableMetrics = false) : metricsStep env cfg r = Except.ok (none, []) := by
  simp [metricsStep, h]

theorem metricsStep_override (env : Env) (cfg : Config) (r : Resource) (mp : MeterProvider)
    (h : cfg.enableMetrics = true) (ho : cfg.meterProvider = some mp) :
    metricsStep env cfg r = Except.ok (some mp, []) := by
  simp [metricsStep, h, ho]

theorem metricsStep_exporter_error (env : Env) (cfg : Config) (r : Resource) (e : GoError)
    (h : cfg.enableMetrics = true) (ho : cfg.meterProvider = none)
    (he : env.otlpmetricNew (metricsClientOpts cfg) = Except.error e) :
    metricsStep env cfg r = Except.error
      ("failed to create otlp metric exporter: " ++ e,
       [Effect.metricExporterNew (metricsClientOpts cfg)]) := by
  simp [metricsStep, h, ho, he]

theorem metricsStep_exporter_ok (env : Env) (cfg : Config) (r : Resource) (mexp : MetricExporter)
    (h : cfg.enableMetrics = true) (ho : cfg.meterProvider = none)
    (he : env.otlpmetricNew (metricsClientOpts cfg) = Except.ok mexp) :
    metricsStep env cfg r = Except.ok
      (some (NewMeterProvider (NewPeriodicReader mexp 15) r),
       [Effect.metricExporterNew (metricsClientOpts cfg)]) := by
  simp [metricsStep, h, ho, he]

theorem traceStep_error_shape (env : Env) (cfg : Config) (r : Resource)
    (fail : GoError × List Effect) (h : traceStep env cfg r = Except.error fail) :
    (∃ e, fail.1 = "failed to create otlp trace exporter: " ++ e) ∧
    fail.2 = [Effect.traceExporterNew (traceClientOpts cfg)] := by
  cases het : cfg.enableTracing with
  | false => rw [traceStep_disabled env cfg r het] at h; simp at h
  | true =>
    cases ho : cfg.sdkTracerProvider with
    | some tp => rw [traceStep_override env cfg r tp het ho] at h; simp at h
    | none =>
      cases he : env.otlptraceNew (NewClient (traceClientOpts cfg)) with
      | ok texp => rw [traceStep_exporter_ok env cfg r texp het ho he] at h; simp at h
      | error e =>
        rw [traceStep_exporter_error env cfg r e het ho he] at h
        simp only [Except.error.injEq] at h
        subst h
        exact ⟨⟨e, rfl⟩, rfl⟩

theorem metricsStep_error_shape (env : Env) (cfg : Config) (r : Resource)
    (fail : GoError × List Effect) (h : metricsStep env cfg r = Except.error fail) :
    (∃ e, fail.1 = "failed to create otlp metric exporter: " ++ e) ∧
    fail.2 = [Effect.metricExporterNew (metricsClientOpts cfg)] := by
  cases hem : cfg.enableMetrics with
  | false => rw [metricsStep_disabled env cfg r hem] at h; simp at h
  | true =>
    cases ho : cfg.meterProvider with
    | some mp => rw [metricsStep_override env cfg r mp hem ho] at h; simp at h
    | none =>
      cases he : env.otlpmetricNew (metricsClientOpts cfg) with
      | ok mexp => rw [metricsStep_exporter_ok env cfg r mexp hem ho he] at h; simp at h
      | error e =>
        rw [metricsStep_exporter_error env cfg r e hem ho he] at h
        simp only [Except.error.injEq] at h
        subst h
        exact ⟨⟨e, rfl⟩, rfl⟩

theorem traceStep_ok_shape (env : Env) (cfg : Config) (r : Resource)
    (tOk : Option TracerProvider × List Effect) (h : traceStep env cfg r = Except.ok tOk) :
    (tOk.1 = none ↔ cfg.enableTracing = false) ∧
    (tOk.2 = [] ∨ tOk.2 = [Effect.traceExporterNew (traceClientOpts cfg)]) := by
  cases het : cfg.enableTracing with
  | false =>
    rw [traceStep_disabled env cfg r het] at h
    simp only [Except.ok.injEq] at h
    subst h; simp
  | true =>
    cases ho : cfg.sdkTracerProvider with
    | some tp =>
      rw [traceStep_override env cfg r tp het ho] at h
      simp only [Except.ok.injEq] at h
      subst h; simp
    | none =>
      cases he : env.otlptraceNew (NewClient (traceClientOpts cfg)) with
      | error e => rw [traceStep_exporter_error env cfg r e het ho he] at h; simp at h
      | ok texp =>
        rw [traceStep_exporter_ok env cfg r texp het ho he] at h
        simp only [Except.ok.injEq] at h
        subst h; simp

theorem metricsStep_ok_shape (env : Env) (cfg : Config) (r : Resource)
    (mOk : Option MeterProvider × List Effect) (h : metricsStep env cfg r = Except.ok mOk) :
    (mOk.1 = none ↔ cfg.enableMetrics = false) ∧
    (mOk.2 = [] ∨ mOk.2 = [Effect.metricExporterNew (metricsClientOpts cfg)]) := by
  cases hem : cfg.enableMetrics with
  | false =>
    rw [metricsStep_disabled env cfg r hem] at h
    simp only [Except.ok.injEq] at h
    subst h; simp
  | true =>
    cases ho : cfg.meterProvider with
    | some mp =>
      rw [metricsStep_override env cfg r mp hem ho] at h
      simp only [Except.ok.injEq] at h
      subst h; simp
    | none =>
      cases he : env.otlpmetricNew (metricsClientOpts cfg) with
      | error e => rw [metricsStep_exporter_error env cfg r e hem ho he] at h; simp at h
      | ok mexp =>
        rw [metricsStep_exporter_ok env cfg r mexp hem ho he] at h
        simp only [Except.ok.injEq] at h
        subst h; simp

theorem traceStep_ok_of_exporter_ok (env : Env) (cfg : Config) (r : Resource)
    (texp : TraceExporter)
    (he : env.otlptraceNew (NewClient (traceClientOpts cfg)) = Except.ok texp) :
    ∃ tOk, traceStep env cfg r = Except.ok tOk := by
  cases het : cfg.enableTracing with
  | false => exact ⟨_, traceStep_disabled env cfg r het⟩
  | true =>
    cases ho : cfg.sdkTracerProvider with
    | some tp => exact ⟨_, traceStep_override env cfg r tp het ho⟩
    | none => exact ⟨_, traceStep_exporter_ok env cfg r texp het ho he⟩

theorem metricsStep_ok_of_exporter_ok (env : Env) (cfg : Config) (r : Resource)
    (mexp : MetricExporter)
    (he : env.otlpmetricNew (metricsClientOpts cfg) = Except.ok mexp) :
    ∃ mOk, metricsStep env cfg r = Except.ok mOk := by
  cases hem : cfg.enableMetrics with
  | false => exact ⟨_, metricsStep_disabled env cfg r hem⟩
  | true =>
    cases ho : cfg.meterProvider with
    | some mp => exact ⟨_, metricsStep_override env cfg r mp hem ho⟩
    | none => exact ⟨_, metricsStep_exporter_ok env cfg r mexp hem ho he⟩

theorem newResource_log_shape (env : Env) (cfg : Config) :
    (newResource env cfg).2 = [] ∨
    (newResource env cfg).2 = [Effect.resourceDetect (resourceOptions cfg)] := by
  cases hr : cfg.resource with
  | some r => simp [newResource, hr]
  | none =>
    cases hres : env.resourceNew (resourceOptions cfg) with
    | ok res => simp [newResource, hr, hres]
    | error e => simp [newResource, hr, hres]

theorem newOTP_off (env : Env) (cfg : Config)
    (ht : cfg.enableTracing = false) (hm : cfg.enableMetrics = false) :
    NewOpenTelemetryProvider env cfg = ((none, none), []) := by
  simp [NewOpenTelemetryProvider, ht, hm]

theorem newOTP_traceStep_error (env : Env) (cfg : Config) (fail : GoError × List Effect)
    (hb : (!cfg.enableTracing && !cfg.enableMetrics) = false)
    (h : traceStep env cfg (newResource env cfg).1 = Except.error fail) :
    NewOpenTelemetryProvider env cfg =
      ((none, some fail.1), (newResource env cfg).2 ++ fail.2) := by
  simp [NewOpenTelemetryProvider, hb, h]

theorem newOTP_metricsStep_error (env : Env) (cfg : Config)
    (tOk : Option TracerProvider × List Effect) (fail : GoError × List Effect)
    (hb : (!cfg.enableTracing && !cfg.enableMetrics) = false)
    (ht : traceStep env cfg (newResource env cfg).1 = Except.ok tOk)
    (hm : metricsStep env cfg (newResource env cfg).1 = Except.error fail) :
    NewOpenTelemetryProvider env cfg =
      ((none, some fail.1), (newResource env cfg).2 ++ tOk.2 ++ fail.2) := by
  simp [NewOpenTelemetryProvider, hb, ht, hm]

theorem newOTP_ok (env : Env) (cfg : Config)
    (tOk : Option TracerProvider × List Effect) (mOk : Option MeterProvider × List Effect)
    (hb : (!cfg.enableTracing && !cfg.enableMetrics) = false)
    (ht : traceStep env cfg (newResource env cfg).1 = Except.ok tOk)
    (hm : metricsStep env cfg (newResource env cfg).1 = Except.ok mOk) :
    NewOpenTelemetryProvider env cfg =
      ((some ⟨tOk.1, mOk.1⟩, none), (newResource env cfg).2 ++ tOk.2 ++ mOk.2) := by
  simp [NewOpenTelemetryProvider, hb, ht, hm]

theorem initialize_error_inversion (env : Env) (cfg : Config) (msg : GoError)
    (h : (NewOpenTelemetryProvider env cfg).1.2 = some msg) :
    (NewOpenTelemetryProvider env cfg).1.1 = none ∧
    ((∃ e, msg = "failed to create otlp trace exporter: " ++ e) ∨
     (∃ e, msg = "failed to create otlp metric exporter: " ++ e)) := by
  cases hbv : (!cfg.enableTracing && !cfg.enableMetrics) with
  | true =>
    simp only [Bool.and_eq_true, Bool.not_eq_true'] at hbv
    rw [newOTP_off env cfg hbv.1 hbv.2] at h
    simp at h
  | false =>
    cases hts : traceStep env cfg (newResource env cfg).1 with
    | error fail =>
      have heq := newOTP_traceStep_error env cfg fail hbv hts
      rw [heq] at h
      simp only at h
      obtain ⟨⟨e, he⟩, _⟩ := traceStep_error_shape env cfg (newResource env cfg).1 fail hts
      rw [heq]
      refine ⟨rfl, Or.inl ⟨e, ?_⟩⟩
      have : fail.1 = msg := by simpa using h
      rw [← this, he]
    | ok tOk =>
      cases hms : metricsStep env cfg (newResource env cfg).1 with
      | error fail =>
        have heq := newOTP_metricsStep_error env cfg tOk fail hbv hts hms
        rw [heq] at h
        simp only at h
        obtain ⟨⟨e, he⟩, _⟩ := metricsStep_error_shape env cfg (newResource env cfg).1 fail hms
        rw [heq]
        refine ⟨rfl, Or.inr ⟨e, ?_⟩⟩
        have : fail.1 = msg := by simpa using h
        rw [← this, he]
      | ok mOk =>
        rw [newOTP_ok env cfg tOk mOk hbv hts hms] at h
        simp at h

/-! Claim theorems. -/

/-- C1 (amended): for every handle pair and shutdown environment,
Shutdown reports each provider-shutdown failure to the process-wide
error handler (`otel.Handle`) rather than aborting, and returns the
result of the last underlying provider shutdown it attempted (nil if
that last attempt succeeded, even when an earlier one failed): the meter
result whenever the meter provider is non-nil, otherwise the tracer
result, otherwise nil. -/
theorem C1_shutdown_reports_and_returns_last_attempted (env : Env) (p : OtelProvider) :
    (∀ tp e, p.TracerProvider = some tp → env.tracerShutdown tp = some e →
      Effect.otelHandle e ∈ (OtelProvider.Shutdown env p).2) ∧
    (∀ mp e, p.MeterProvider = some mp → env.meterShutdown mp = some e →
      Effect.otelHandle e ∈ (OtelProvider.Shutdown env p).2) ∧
    (OtelProvider.Shutdown env p).1 =
      (match p.MeterProvider with
       | some mp => env.meterShutdown mp
       | none =>
         match p.TracerProvider with
         | some tp => env.tracerShutdown tp
         | none => none) := by
  refine ⟨?_, ?_, ?_⟩
  · intro tp e htp he
    cases hm : p.MeterProvider with
    | none => simp [OtelProvider.Shutdown, htp, he, hm]
    | some mp =>
      cases hms : env.meterShutdown mp <;>
        simp [OtelProvider.Shutdown, htp, he, hm, hms]
  · intro mp e hmp he
    cases ht : p.TracerProvider with
    | none => simp [OtelProvider.Shutdown, ht, hmp, he]
    | some tp =>
      cases hts : env.tracerShutdown tp <;>
        simp [OtelProvider.Shutdown, ht, hts, hmp, he]
  · cases hm : p.MeterProvider with
    | some mp =>
      cases hms : env.meterShutdown mp with
      | some e =>
        cases ht : p.TracerProvider with
        | none => simp [OtelProvider.Shutdown, ht, hm, hms]
        | some tp =>
          cases hts : env.tracerShutdown tp <;>
            simp [OtelProvider.Shutdown, ht, hm, hms, hts]
      | none =>
        cases ht : p.TracerProvider with
        | none => simp [OtelProvider.Shutdown, ht, hm, hms]
        | some tp =>
          cases hts : env.tracerShutdown tp <;>
            simp [OtelProvider.Shutdown, ht, hm, hms, hts]
    | none =>
      cases ht : p.TracerProvider with
      | none => simp [OtelProvider.Shutdown, ht, hm]
      | some tp =>
        cases hts : env.tracerShutdown tp <;>
          simp [OtelProvider.Shutdown, ht, hm, hts]

/-- C1 witness: with both providers set and both underlying shutdowns
failing, both errors are handled and the meter error is returned. -/
theorem C1_shutdown_reports_and_returns_last_attempted_witness :
    Effect.otelHandle "tfail" ∈ (OtelProvider.Shutdown envBothShutdownsFail pairBoth).2 ∧
    Effect.otelHandle "mfail" ∈ (OtelProvider.Shutdown envBothShutdownsFail pairBoth).2 ∧
    (OtelProvider.Shutdown envBothShutdownsFail pairBoth).1 = some "mfail" :=
  ⟨(C1_shutdown_reports_and_returns_last_attempted envBothShutdownsFail pairBoth).1
      tpA "tfail" rfl rfl,
   (C1_shutdown_reports_and_returns_last_attempted envBothShutdownsFail pairBoth).2.1
      mpA "mfail" rfl rfl,
   ((C1_shutdown_reports_and_returns_last_attempted envBothShutdownsFail pairBoth).2.2).trans
      rfl⟩

/-- C1 counterexample: with both providers set, a failing tracer
shutdown and a succeeding meter shutdown, Shutdown returns nil, not the
trace shutdown error claimed — the trace error is only passed to the
handler. -/
theorem C1_counterexample :
    pairBoth.TracerProvider = some tpA ∧
    pairBoth.MeterProvider = some mpA ∧
    envTraceShutdownFails.tracerShutdown tpA = some "trace shutdown failed" ∧
    envTraceShutdownFails.meterShutdown mpA = none ∧
    Effect.otelHandle "trace shutdown failed" ∈
      (OtelProvider.Shutdown envTraceShutdownFails pairBoth).2 ∧
    (OtelProvider.Shutdown envTraceShutdownFails pairBoth).1 = none ∧
    (OtelProvider.Shutdown envTraceShutdownFails pairBoth).1 ≠
      some "trace shutdown failed" := by
  refine ⟨rfl, rfl, rfl, rfl, ?_, rfl, ?_⟩ <;> decide

/-- C2: with both telemetry toggles off, NewOpenTelemetryProvider
returns a nil handle pair and a nil error (and performs no external
call) regardless of every other option and of the external SDK
behaviour. -/
theorem C2_initialize_disabled_nil_nil (env : Env) (cfg : Config)
    (ht : cfg.enableTracing = false) (hm : cfg.enableMetrics = false) :
    NewOpenTelemetryProvider env cfg = ((none, none), []) :=
  newOTP_off env cfg ht hm

/-- C2 witness at the all-off configuration. -/
theorem C2_initialize_disabled_nil_nil_witness :
    cfgOff.enableTracing = false ∧ cfgOff.enableMetrics = false ∧
    NewOpenTelemetryProvider envOk cfgOff = ((none, none), []) :=
  ⟨rfl, rfl, C2_initialize_disabled_nil_nil envOk cfgOff rfl rfl⟩

/-- C3: every error returned by NewOpenTelemetryProvider comes with a
nil handle pair and a message identifying the trace or the metric
exporter; a failing trace-exporter construction yields the nil pair with
the wrapped trace message, and a failing metric-exporter construction
(once the tracing branch has passed) yields the nil pair with the
wrapped metric message. -/
theorem C3_exporter_failure_nil_pair_identified (env : Env) (cfg : Config) :
    (∀ msg, (NewOpenTelemetryProvider env cfg).1.2 = some msg →
      (NewOpenTelemetryProvider env cfg).1.1 = none ∧
      ((∃ e, msg = "failed to create otlp trace exporter: " ++ e) ∨
       (∃ e, msg = "failed to create otlp metric exporter: " ++ e))) ∧
    (∀ e, cfg.enableTracing = true → cfg.sdkTracerProvider = none →
      env.otlptraceNew (NewClient (traceClientOpts cfg)) = Except.error e →
      (NewOpenTelemetryProvider env cfg).1 =
        (none, some ("failed to create otlp trace exporter: " ++ e))) ∧
    (∀ e tOk, cfg.enableMetrics = true → cfg.meterProvider = none →
      traceStep env cfg (newResource env cfg).1 = Except.ok tOk →
      env.otlpmetricNew (metricsClientOpts cfg) = Except.error e →
      (NewOpenTelemetryProvider env cfg).1 =
        (none, some ("failed to create otlp metric exporter: " ++ e))) := by
  refine ⟨fun msg h => initialize_error_inversion env cfg msg h, ?_, ?_⟩
  · intro e het ho he
    have hb : (!cfg.enableTracing && !cfg.enableMetrics) = false := by simp [het]
    have hts := traceStep_exporter_error env cfg (newResource env cfg).1 e het ho he
    rw [newOTP_traceStep_error env cfg _ hb hts]
  · intro e tOk hem hom hts hme
    have hb : (!cfg.enableTracing && !cfg.enableMetrics) = false := by simp [hem]
    have hms := metricsStep_exporter_error env cfg (newResource env cfg).1 e hem hom hme
    rw [newOTP_metricsStep_error env cfg tOk _ hb hts hms]

/-- C3 witness: a failing trace-exporter construction at a concrete
tracing-only configuration. -/
theorem C3_exporter_failure_nil_pair_identified_witness :
    cfgTraceOnly.enableTracing = true ∧
    cfgTraceOnly.sdkTracerProvider = none ∧
    envTraceExporterFails.otlptraceNew (NewClient (traceClientOpts cfgTraceOnly)) =
      Except.error "boom" ∧
    (NewOpenTelemetryProvider envTraceExporterFails cfgTraceOnly).1 =
      (none, some ("failed to create otlp trace exporter: " ++ "boom")) :=
  ⟨rfl, rfl, rfl,
   (C3_exporter_failure_nil_pair_identified envTraceExporterFails cfgTraceOnly).2.1
      "boom" rfl rfl rfl⟩

/-- C4: with exportInsecure set, both exporter-client option lists carry
the plaintext option and never the TLS-credentials option, even when
exportTLSInsecure is also set; with only exportTLSInsecure set, both
carry the TLS-credentials option and not the plaintext one; with both
clear, neither option appears. -/
theorem C4_tls_policy (cfg : Config) :
    (cfg.exportInsecure = true →
      ClientOption.withInsecure ∈ traceClientOpts cfg ∧
      ClientOption.withTLSCredentials ∉ traceClientOpts cfg ∧
      ClientOption.withInsecure ∈ metricsClientOpts cfg ∧
      ClientOption.withTLSCredentials ∉ metricsClientOpts cfg) ∧
    (cfg.exportInsecure = false → cfg.exportTLSInsecure = true →
      ClientOption.withTLSCredentials ∈ traceClientOpts cfg ∧
      ClientOption.withInsecure ∉ traceClientOpts cfg ∧
      ClientOption.withTLSCredentials ∈ metricsClientOpts cfg ∧
      ClientOption.withInsecure ∉ metricsClientOpts cfg) ∧
    (cfg.exportInsecure = false → cfg.exportTLSInsecure = false →
      ClientOption.withInsecure ∉ traceClientOpts cfg ∧
      ClientOption.withTLSCredentials ∉ traceClientOpts cfg ∧
      ClientOption.withInsecure ∉ metricsClientOpts cfg ∧
      ClientOption.withTLSCredentials ∉ metricsClientOpts cfg) := by
  refine ⟨fun h1 => ?_, fun h1 h2 => ?_, fun h1 h2 => ?_⟩ <;>
    simp only [traceClientOpts, metricsClientOpts, h1, List.mem_append] <;>
    try simp only [h2]
  all_goals split_ifs <;> simp_all

/-- C4 witness: with both insecurity flags set, the plaintext option is
chosen and the TLS option absent in both option lists. -/
theorem C4_tls_policy_witness :
    cfgBothInsecure.exportInsecure = true ∧
    cfgBothInsecure.exportTLSInsecure = true ∧
    (ClientOption.withInsecure ∈ traceClientOpts cfgBothInsecure ∧
     ClientOption.withTLSCredentials ∉ traceClientOpts cfgBothInsecure ∧
     ClientOption.withInsecure ∈ metricsClientOpts cfgBothInsecure ∧
     ClientOption.withTLSCredentials ∉ metricsClientOpts cfgBothInsecure) :=
  ⟨rfl, rfl, (C4_tls_policy cfgBothInsecure).1 rfl⟩

/-- C5: with tracing enabled and an override tracer provider supplied,
NewOpenTelemetryProvider never constructs a trace exporter (no
trace-exporter construction effect occurs, hence its failure path is
skipped), and any handle pair it returns carries exactly the override
instance as its tracer-provider handle. -/
theorem C5_trace_override_verbatim (env : Env) (cfg : Config) (tp : TracerProvider)
    (het : cfg.enableTracing = true) (ho : cfg.sdkTracerProvider = some tp) :
    (∀ opts, Effect.traceExporterNew opts ∉ (NewOpenTelemetryProvider env cfg).2) ∧
    (∀ pair, (NewOpenTelemetryProvider env cfg).1.1 = some pair →
      pair.TracerProvider = some tp) := by
  have hb : (!cfg.enableTracing && !cfg.enableMetrics) = false := by simp [het]
  have hts := traceStep_override env cfg (newResource env cfg).1 tp het ho
  cases hms : metricsStep env cfg (newResource env cfg).1 with
  | error fail =>
    have heq := newOTP_metricsStep_error env cfg _ fail hb hts hms
    have hf2 := (metricsStep_error_shape env cfg (newResource env cfg).1 fail hms).2
    constructor
    · intro opts hmem
      rw [heq] at hmem
      rcases newResource_log_shape env cfg with hrl | hrl <;>
        simp [hrl, hf2] at hmem
    · intro pair hp
      rw [heq] at hp
      simp at hp
  | ok mOk =>
    have heq := newOTP_ok env cfg _ mOk hb hts hms
    have hm2 := (metricsStep_ok_shape env cfg (newResource env cfg).1 mOk hms).2
    constructor
    · intro opts hmem
      rw [heq] at hmem
      rcases newResource_log_shape env cfg with hrl | hrl <;>
        rcases hm2 with hm2 | hm2 <;> simp [hrl, hm2] at hmem
    · intro pair hp
      rw [heq] at hp
      simp at hp
      subst hp
      rfl

/-- C5 witness at a concrete override configuration: no trace-exporter
construction effect, and the returned pair holds the override. -/
theorem C5_trace_override_verbatim_witness :
    cfgTraceOverride.enableTracing = true ∧
    cfgTraceOverride.sdkTracerProvider = some tpA ∧
    Effect.traceExporterNew (traceClientOpts cfgTraceOverride) ∉
      (NewOpenTelemetryProvider envOk cfgTraceOverride).2 ∧
    (NewOpenTelemetryProvider envOk cfgTraceOverride).1.1 = some ⟨some tpA, none⟩ ∧
    (⟨some tpA, none⟩ : OtelProvider).TracerProvider = some tpA :=
  ⟨rfl, rfl,
   (C5_trace_override_verbatim envOk cfgTraceOverride tpA rfl rfl).1
      (traceClientOpts cfgTraceOverride),
   rfl,
   (C5_trace_override_verbatim envOk cfgTraceOverride tpA rfl rfl).2 ⟨some tpA, none⟩ rfl⟩

/-- C6: on a handle pair with only a tracer provider, Shutdown performs
exactly one underlying provider shutdown (the tracer one), never calls a
meter shutdown, and returns nil when that single shutdown succeeds. -/
theorem C6_shutdown_trace_only (env : Env) (p : OtelProvider) (tp : TracerProvider)
    (h1 : p.TracerProvider = some tp) (h2 : p.MeterProvider = none) :
    List.filter Effect.isProviderShutdown (OtelProvider.Shutdown env p).2 =
      [Effect.tracerShutdownCall tp] ∧
    (∀ mp, Effect.meterShutdownCall mp ∉ (OtelProvider.Shutdown env p).2) ∧
    (env.tracerShutdown tp = none → (OtelProvider.Shutdown env p).1 = none) := by
  cases hts : env.tracerShutdown tp <;>
    simp [OtelProvider.Shutdown, h1, h2, hts, List.filter]

/-- C6 witness at a concrete trace-only pair in a succeeding
environment. -/
theorem C6_shutdown_trace_only_witness :
    pairTraceOnly.TracerProvider = some tpA ∧
    pairTraceOnly.MeterProvider = none ∧
    List.filter Effect.isProviderShutdown
      (OtelProvider.Shutdown envOk pairTraceOnly).2 =
      [Effect.tracerShutdownCall tpA] ∧
    Effect.meterShutdownCall mpA ∉ (OtelProvider.Shutdown envOk pairTraceOnly).2 ∧
    (OtelProvider.Shutdown envOk pairTraceOnly).1 = none :=
  ⟨rfl, rfl, (C6_shutdown_trace_only envOk pairTraceOnly tpA rfl rfl).1,
   (C6_shutdown_trace_only envOk pairTraceOnly tpA rfl rfl).2.1 mpA,
   (C6_shutdown_trace_only envOk pairTraceOnly tpA rfl rfl).2.2 rfl⟩

/-- C7: on a handle pair with both providers set, Shutdown attempts both
underlying shutdowns, tracer first then meter, in every environment —
in particular a failing tracer shutdown does not prevent the meter
shutdown attempt. -/
theorem C7_shutdown_attempts_both_in_order (env : Env) (p : OtelProvider)
    (tp : TracerProvider) (mp : MeterProvider)
    (h1 : p.TracerProvider = some tp) (h2 : p.MeterProvider = some mp) :
    List.filter Effect.isProviderShutdown (OtelProvider.Shutdown env p).2 =
      [Effect.tracerShutdownCall tp, Effect.meterShutdownCall mp] := by
  cases hts : env.tracerShutdown tp <;> cases hms : env.meterShutdown mp <;>
    simp [OtelProvider.Shutdown, h1, h2, hts, hms, List.filter]

/-- C7 witness: both shutdowns attempted in order although the tracer
shutdown fails. -/
theorem C7_shutdown_attempts_both_in_order_witness :
    envTraceShutdownFails.tracerShutdown tpA = some "trace shutdown failed" ∧
    List.filter Effect.isProviderShutdown
      (OtelProvider.Shutdown envTraceShutdownFails pairBoth).2 =
      [Effect.tracerShutdownCall tpA, Effect.meterShutdownCall mpA] :=
  ⟨rfl, C7_shutdown_attempts_both_in_order envTraceShutdownFails pairBoth tpA mpA rfl rfl⟩

/-- C8: with a pre-built resource descriptor configured, newResource
returns that exact descriptor and performs no external call — in
particular no detector-running resource.New invocation. -/
theorem C8_prebuilt_resource_verbatim (env : Env) (cfg : Config) (r : Resource)
    (h : cfg.resource = some r) :
    (newResource env cfg).1 = r ∧
    (newResource env cfg).2 = [] ∧
    (∀ opts, Effect.resourceDetect opts ∉ (newResource env cfg).2) := by
  simp [newResource, h]

/-- C8 witness at a concrete configuration carrying a pre-built
resource. -/
theorem C8_prebuilt_resource_verbatim_witness :
    cfgPrebuiltRes.resource = some (Resource.mk 5) ∧
    (newResource envOk cfgPrebuiltRes).1 = Resource.mk 5 ∧
    (newResource envOk cfgPrebuiltRes).2 = [] :=
  ⟨rfl, (C8_prebuilt_resource_verbatim envOk cfgPrebuiltRes (Resource.mk 5) rfl).1,
   (C8_prebuilt_resource_verbatim envOk cfgPrebuiltRes (Resource.mk 5) rfl).2.1⟩

/-- C9: without a pre-built resource, a failing resource detection makes
newResource return the SDK default resource; the detection failure never
causes initialization to fail (with both exporter constructions
succeeding the returned error is nil) and is never surfaced (every
non-nil error of NewOpenTelemetryProvider is an exporter-construction
error). -/
theorem C9_detection_failure_recovered (env : Env) (cfg : Config) (e : GoError)
    (h1 : cfg.resource = none)
    (h2 : env.resourceNew (resourceOptions cfg) = Except.error e) :
    (newResource env cfg).1 = Resource.defaultRes ∧
    (∀ texp mexp, env.otlptraceNew (NewClient (traceClientOpts cfg)) = Except.ok texp →
      env.otlpmetricNew (metricsClientOpts cfg) = Except.ok mexp →
      (NewOpenTelemetryProvider env cfg).1.2 = none) ∧
    (∀ msg, (NewOpenTelemetryProvider env cfg).1.2 = some msg →
      (∃ e2, msg = "failed to create otlp trace exporter: " ++ e2) ∨
      (∃ e2, msg = "failed to create otlp metric exporter: " ++ e2)) := by
  refine ⟨by simp [newResource, h1, h2], ?_,
    fun msg h => (initialize_error_inversion env cfg msg h).2⟩
  intro texp mexp hte hme
  cases hbv : (!cfg.enableTracing && !cfg.enableMetrics) with
  | true =>
    simp only [Bool.and_eq_true, Bool.not_eq_true'] at hbv
    rw [newOTP_off env cfg hbv.1 hbv.2]
  | false =>
    obtain ⟨tOk, hts⟩ :=
      traceStep_ok_of_exporter_ok env cfg (newResource env cfg).1 texp hte
    obtain ⟨mOk, hms⟩ :=
      metricsStep_ok_of_exporter_ok env cfg (newResource env cfg).1 mexp hme
    rw [newOTP_ok env cfg tOk mOk hbv hts hms]

/-- C9 witness: failing detection at a concrete configuration with both
toggles on; the default resource is used and initialization still
succeeds. -/
theorem C9_detection_failure_recovered_witness :
    cfgBoth.resource = none ∧
    envResourceFails.resourceNew (resourceOptions cfgBoth) = Except.error "no host info" ∧
    (newResource envResourceFails cfgBoth).1 = Resource.defaultRes ∧
    (NewOpenTelemetryProvider envResourceFails cfgBoth).1.2 = none :=
  ⟨rfl, rfl,
   (C9_detection_failure_recovered envResourceFails cfgBoth "no host info" rfl rfl).1,
   (C9_detection_failure_recovered envResourceFails cfgBoth "no host info" rfl rfl).2.1
      ⟨11⟩ ⟨12⟩ rfl rfl⟩

/-- C10: whenever NewOpenTelemetryProvider returns a non-nil handle
pair, its tracer-provider handle is non-nil exactly when enableTracing
is set, and its meter-provider handle is non-nil exactly when
enableMetrics is set. -/
theorem C10_success_handles_match_toggles (env : Env) (cfg : Config) (pair : OtelProvider)
    (h : (NewOpenTelemetryProvider env cfg).1.1 = some pair) :
    (pair.TracerProvider ≠ none ↔ cfg.enableTracing = true) ∧
    (pair.MeterProvider ≠ none ↔ cfg.enableMetrics = true) := by
  cases hbv : (!cfg.enableTracing && !cfg.enableMetrics) with
  | true =>
    simp only [Bool.and_eq_true, Bool.not_eq_true'] at hbv
    rw [newOTP_off env cfg hbv.1 hbv.2] at h
    simp at h
  | false =>
    cases hts : traceStep env cfg (newResource env cfg).1 with
    | error fail =>
      rw [newOTP_traceStep_error env cfg fail hbv hts] at h
      simp at h
    | ok tOk =>
      cases hms : metricsStep env cfg (newResource env cfg).1 with
      | error fail =>
        rw [newOTP_metricsStep_error env cfg tOk fail hbv hts hms] at h
        simp at h
      | ok mOk =>
        rw [newOTP_ok env cfg tOk mOk hbv hts hms] at h
        simp at h
        subst h
        have hT := (traceStep_ok_shape env cfg (newResource env cfg).1 tOk hts).1
        have hM := (metricsStep_ok_shape env cfg (newResource env cfg).1 mOk hms).1
        constructor
        · show tOk.1 ≠ none ↔ cfg.enableTracing = true
          rw [ne_eq, hT]
          cases cfg.enableTracing <;> simp
        · show mOk.1 ≠ none ↔ cfg.enableMetrics = true
          rw [ne_eq, hM]
          cases cfg.enableMetrics <;> simp

/-- C10 witness at the concrete pair built for a tracing-only
configuration. -/
theorem C10_success_handles_match_toggles_witness :
    (NewOpenTelemetryProvider envOk cfgTraceOnly).1.1 = some pairBuiltTrace ∧
    ((pairBuiltTrace.TracerProvider ≠ none ↔ cfgTraceOnly.enableTracing = true) ∧
     (pairBuiltTrace.MeterProvider ≠ none ↔ cfgTraceOnly.enableMetrics = true)) :=
  ⟨rfl, C10_success_handles_match_toggles envOk cfgTraceOnly pairBuiltTrace rfl⟩

end EinoOtel
